import Mathlib

/-!
Verification of `src/mcp_server/src/agents/run_smolagents.py`.

The script is:

  from smolagents import CodeAgent
  try:
      agent = CodeAgent(tools=[])
      result = agent.run("What is the 15th prime number?")
      print(result)
  except Exception as e:
      print(f"Error running CodeAgent: \x7be\x7d")

We embed it shallowly.  The external `smolagents` library is modelled as a
record of behaviours: the outcome of the module import, the outcome of the
`CodeAgent` constructor for each tool list, and the outcome of `run` for each
agent and prompt.  Python exceptions are split into the two classes relevant
to `except Exception`: instances of `Exception`, and `BaseException`s that are
not `Exception`s (`KeyboardInterrupt`, `SystemExit`, ...).  The script is a
pure function from a library behaviour to the trace of observable events
(constructor call, run call, print calls) and a terminal outcome (normal exit,
or an uncaught exception leaving the process).
-/

namespace RunSmolagents

/-- The class of a raised Python exception object, as seen by
`except Exception`: either an instance of `Exception`, or a
`BaseException` that is not an `Exception` (e.g. `KeyboardInterrupt`,
`SystemExit`). -/
inductive ExcClass
  | exception
  | baseOnly
deriving DecidableEq, Repr

/-- A raised Python exception: its class and its textual description
`str(e)`. -/
structure Exc where
  cls : ExcClass
  msg : String
deriving DecidableEq, Repr

/-- Outcome of one Python call: a returned value, or a raised exception. -/
inductive Call (α : Type)
  | ok (v : α)
  | raise (e : Exc)
deriving DecidableEq, Repr

/-- Agents are opaque handles returned by the constructor. -/
abbrev Agent := Nat

/-- Tools are opaque; the script only ever passes the empty list. -/
abbrev Tool := Nat

/-- The behaviour of the external `smolagents` library: what the module
module import does, what `CodeAgent(tools=ts)` does, and what
`agent.run(p)` does.
The script's output is determined by these behaviours alone. -/
structure Smolagents where
  moduleImport : Call Unit
  CodeAgent : List Tool → Call Agent
  run : Agent → String → Call String

/-- Observable events of one execution of the script, in order. -/
inductive Event
  | constructCall (tools : List Tool)
  | runCall (a : Agent) (p : String)
  | printOut (s : String)
deriving DecidableEq, Repr

/-- How the process terminates: normally (exit status 0), or with an
uncaught exception propagating out of the process. -/
inductive Outcome
  | normalExit
  | uncaught (e : Exc)
deriving DecidableEq, Repr

/-- The hard-coded request string of line 9 of the script. -/
def prompt : String := "What is the 15th prime number?"

/-- The error line printed by the handler of line 12:
`f"Error running CodeAgent: \x7be\x7d"`, which interpolates `str(e)`. -/
def errorLine (e : Exc) : String := "Error running CodeAgent: " ++ e.msg

/-- The `try` block (lines 3-12): construct `CodeAgent(tools=[])`, then
`agent.run(prompt)`, then `print(result)`; an `Exception`-class failure in
any of these is caught by `except Exception as e` and turned into the single
error print; a `BaseException` that is not an `Exception` propagates. -/
def tryBody (lib : Smolagents) : List Event × Outcome :=
  match lib.CodeAgent [] with
  | Call.raise e =>
      if e.cls = ExcClass.exception then
        ([Event.constructCall [], Event.printOut (errorLine e)], Outcome.normalExit)
      else
        ([Event.constructCall []], Outcome.uncaught e)
  | Call.ok agent =>
      match lib.run agent prompt with
      | Call.raise e =>
          if e.cls = ExcClass.exception then
            ([Event.constructCall [], Event.runCall agent prompt,
              Event.printOut (errorLine e)], Outcome.normalExit)
          else
            ([Event.constructCall [], Event.runCall agent prompt],
             Outcome.uncaught e)
      | Call.ok r =>
          ([Event.constructCall [], Event.runCall agent prompt,
            Event.printOut r], Outcome.normalExit)

/-- The whole script: line 1 (`from smolagents import CodeAgent`) runs
before the `try` block, so an import failure of any class propagates
uncaught; otherwise the `try` block runs. -/
def runScript (lib : Smolagents) : List Event × Outcome :=
  match lib.moduleImport with
  | Call.raise e => ([], Outcome.uncaught e)
  | Call.ok _ => tryBody lib

/-- The strings printed during a trace, in order. -/
def printedOf : List Event → List String
  | [] => []
  | Event.printOut s :: rest => s :: printedOf rest
  | Event.constructCall _ :: rest => printedOf rest
  | Event.runCall _ _ :: rest => printedOf rest

/-- Everything the script prints to standard output, in order. -/
def outputs (lib : Smolagents) : List String := printedOf (runScript lib).1

/-! ### Concrete library behaviours used by witnesses and counterexamples -/

/-- A fully successful library: import succeeds, `CodeAgent(tools=[])`
returns agent `7`, and `run` answers `"47"` (the 15th prime). -/
def libOk : Smolagents where
  moduleImport := Call.ok ()
  CodeAgent := fun _ => Call.ok 7
  run := fun _ _ => Call.ok "47"

/-- Like `libOk` at every point the script touches, but with a different
behaviour on tool lists the script never passes; `run` answers the same. -/
def libOkShadow : Smolagents where
  moduleImport := Call.ok ()
  CodeAgent := fun ts => if ts.isEmpty then Call.ok 7 else Call.raise ⟨ExcClass.exception, "unused"⟩
  run := fun _ _ => Call.ok "47"

/-- An `Exception`-class failure with message `"boom"`. -/
def excBoom : Exc := ⟨ExcClass.exception, "boom"⟩

/-- A `KeyboardInterrupt`: a `BaseException` that is not an `Exception`. -/
def kbInt : Exc := ⟨ExcClass.baseOnly, "KeyboardInterrupt"⟩

/-- A `SystemExit`: a `BaseException` that is not an `Exception`. -/
def sysExitE : Exc := ⟨ExcClass.baseOnly, "SystemExit"⟩

/-- Import succeeds, the constructor raises the `Exception` `excBoom`. -/
def libCtorBoom : Smolagents where
  moduleImport := Call.ok ()
  CodeAgent := fun _ => Call.raise excBoom
  run := fun _ _ => Call.ok "unreached"

/-- Import succeeds, construction succeeds, `run` raises the `Exception`
`excBoom`. -/
def libRunBoom : Smolagents where
  moduleImport := Call.ok ()
  CodeAgent := fun _ => Call.ok 3
  run := fun _ _ => Call.raise excBoom

/-- Import succeeds, the constructor raises a `KeyboardInterrupt`. -/
def libCtorKb : Smolagents where
  moduleImport := Call.ok ()
  CodeAgent := fun _ => Call.raise kbInt
  run := fun _ _ => Call.ok "unreached"

/-- Import succeeds, construction succeeds, `run` raises a `SystemExit`. -/
def libRunSysExit : Smolagents where
  moduleImport := Call.ok ()
  CodeAgent := fun _ => Call.ok 0
  run := fun _ _ => Call.raise sysExitE

/-- The module import itself fails (e.g. `ModuleNotFoundError`). -/
def libImportFail : Smolagents where
  moduleImport := Call.raise ⟨ExcClass.exception, "ModuleNotFoundError"⟩
  CodeAgent := fun _ => Call.ok 0
  run := fun _ _ => Call.ok "unreached"

example : runScript libOk =
    ([Event.constructCall [], Event.runCall 7 prompt, Event.printOut "47"],
     Outcome.normalExit) := by decide

example : runScript libCtorBoom =
    ([Event.constructCall [], Event.printOut (errorLine excBoom)],
     Outcome.normalExit) := by decide

example : runScript libCtorKb =
    ([Event.constructCall []], Outcome.uncaught kbInt) := by decide

example : runScript libRunSysExit =
    ([Event.constructCall [], Event.runCall 0 prompt],
     Outcome.uncaught sysExitE) := by decide

example : runScript libImportFail =
    ([], Outcome.uncaught ⟨ExcClass.exception, "ModuleNotFoundError"⟩) := by
  decide

example : outputs libRunBoom = [errorLine excBoom] := by decide

/-! ### Claims -/

/-- Claim C1, counterexample: the claim quantifies over every behaviour of
the external library, including `run` or the constructor raising a
`BaseException` that is not an `Exception`.  With the constructor raising a
`KeyboardInterrupt`, the exception propagates uncaught out of the process,
so the claim as stated is false. -/
theorem C1_counterexample :
    (runScript libCtorKb).2 = Outcome.uncaught kbInt ∧
      (runScript libCtorKb).2 ≠ Outcome.normalExit := by decide

/-- Claim C1 as amended: for every behaviour of the external library in
which any failure raised by the construction or the run call is of class
`Exception`, the script catches the failure and terminates normally. -/
theorem C1_amended (lib : Smolagents)
    (himp : lib.moduleImport = Call.ok ())
    (hc : ∀ e, lib.CodeAgent [] = Call.raise e → e.cls = ExcClass.exception)
    (hr : ∀ a e, lib.CodeAgent [] = Call.ok a →
      lib.run a prompt = Call.raise e → e.cls = ExcClass.exception) :
    (runScript lib).2 = Outcome.normalExit := by
  cases hA : lib.CodeAgent [] with
  | ok a =>
    cases hR : lib.run a prompt with
    | ok r => simp [runScript, tryBody, himp, hA, hR]
    | raise e => simp [runScript, tryBody, himp, hA, hR, hr a e hA hR]
  | raise e => simp [runScript, tryBody, himp, hA, hc e hA]

/-- Claim C1 witness: `C1_amended` applied to the concrete behaviour in
which construction raises the `Exception` `excBoom`. -/
theorem C1_witness : (runScript libCtorBoom).2 = Outcome.normalExit :=
  C1_amended libCtorBoom rfl
    (fun e h => by injection h with h1; exact h1 ▸ rfl)
    (fun _ e _ h => nomatch h)

/-- Claim C2, counterexample: with `run` raising a `SystemExit` (a failure
that is not an `Exception`), nothing is printed — in particular not the
error line — and the failure is rethrown out of the process, so the claim
as stated over every failure is false. -/
theorem C2_counterexample :
    outputs libRunSysExit ≠ [errorLine sysExitE] ∧
      (runScript libRunSysExit).2 = Outcome.uncaught sysExitE := by decide

/-- Claim C2 as amended: for every `Exception`-class failure `e` raised
during agent construction or during the run invocation, the script's
printed output is exactly `"Error running CodeAgent: "` followed by
`str(e)`, and nothing is rethrown (the process terminates normally). -/
theorem C2_amended (lib : Smolagents) (e : Exc)
    (himp : lib.moduleImport = Call.ok ())
    (hcls : e.cls = ExcClass.exception)
    (hraised : lib.CodeAgent [] = Call.raise e ∨
      ∃ a, lib.CodeAgent [] = Call.ok a ∧ lib.run a prompt = Call.raise e) :
    outputs lib = [errorLine e] ∧ (runScript lib).2 = Outcome.normalExit := by
  rcases hraised with hA | ⟨a, hA, hR⟩
  · simp [outputs, runScript, tryBody, printedOf, himp, hA, hcls]
  · simp [outputs, runScript, tryBody, printedOf, himp, hA, hR, hcls]

/-- Claim C2 witness: `C2_amended` applied to the concrete behaviour in
which construction raises the `Exception` `excBoom`. -/
theorem C2_witness :
    outputs libCtorBoom = [errorLine excBoom] ∧
      (runScript libCtorBoom).2 = Outcome.normalExit :=
  C2_amended libCtorBoom excBoom rfl rfl (Or.inl rfl)

/-- Claim C3: whenever the import and the construction succeed and the run
call returns the value `r`, the script prints exactly `r` (its textual
coercion) and nothing else — no prefix, suffix or other decoration. -/
theorem C3_success_prints_result (lib : Smolagents) (a : Agent) (r : String)
    (himp : lib.moduleImport = Call.ok ())
    (hA : lib.CodeAgent [] = Call.ok a)
    (hR : lib.run a prompt = Call.ok r) :
    outputs lib = [r] := by
  simp [outputs, runScript, tryBody, printedOf, himp, hA, hR]

/-- Claim C3 witness: `C3_success_prints_result` on the fully successful
behaviour `libOk`, whose run call returns `"47"`. -/
theorem C3_witness : outputs libOk = ["47"] :=
  C3_success_prints_result libOk 7 "47" rfl rfl rfl

/-- Claim C4: in every execution, every constructor call passes the empty
tool list, every run call passes exactly the literal request
`"What is the 15th prime number?"`; moreover the constructor is called
whenever the import succeeds, and `run` is called on the constructed agent
whenever construction also succeeds. -/
theorem C4_call_arguments (lib : Smolagents) :
    (∀ ts, Event.constructCall ts ∈ (runScript lib).1 → ts = []) ∧
    (∀ a p, Event.runCall a p ∈ (runScript lib).1 → p = prompt) ∧
    (lib.moduleImport = Call.ok () →
      Event.constructCall [] ∈ (runScript lib).1) ∧
    (∀ a, lib.moduleImport = Call.ok () → lib.CodeAgent [] = Call.ok a →
      Event.runCall a prompt ∈ (runScript lib).1) := by
  cases hI : lib.moduleImport with
  | raise e =>
    refine ⟨?_, ?_, ?_, ?_⟩ <;> simp [runScript, hI]
  | ok u =>
    cases u
    cases hA : lib.CodeAgent [] with
    | raise e =>
      by_cases hcls : e.cls = ExcClass.exception <;>
        refine ⟨?_, ?_, ?_, ?_⟩ <;>
          simp [runScript, tryBody, hI, hA, hcls]
    | ok a =>
      cases hR : lib.run a prompt with
      | raise e =>
        by_cases hcls : e.cls = ExcClass.exception <;>
          refine ⟨?_, ?_, ?_, ?_⟩ <;>
            simp [runScript, tryBody, hI, hA, hR, hcls]
      | ok r =>
        refine ⟨?_, ?_, ?_, ?_⟩ <;>
          simp [runScript, tryBody, hI, hA, hR]

/-- Claim C4 witness: `C4_call_arguments` at the successful behaviour
`libOk`: the constructor is called with `[]` and `run` with the literal
prompt. -/
theorem C4_witness :
    Event.constructCall [] ∈ (runScript libOk).1 ∧
      Event.runCall 7 prompt ∈ (runScript libOk).1 :=
  ⟨(C4_call_arguments libOk).2.2.1 rfl,
   (C4_call_arguments libOk).2.2.2 7 rfl rfl⟩

/-- Claim C5: the trace of every execution has one of five shapes — empty;
one construction; construction then one print; construction then one run
call; construction, one run call, then one print.  Hence construction and
run each happen at most once, run only follows a successful construction,
and nothing (in particular no retry) follows the terminal print. -/
theorem C5_trace_shapes (lib : Smolagents) :
    (runScript lib).1 = [] ∨
    (runScript lib).1 = [Event.constructCall []] ∨
    (∃ s, (runScript lib).1 = [Event.constructCall [], Event.printOut s]) ∨
    (∃ a, (runScript lib).1 =
      [Event.constructCall [], Event.runCall a prompt]) ∨
    (∃ a s, (runScript lib).1 =
      [Event.constructCall [], Event.runCall a prompt, Event.printOut s]) := by
  cases hI : lib.moduleImport with
  | raise e => exact Or.inl (by simp [runScript, hI])
  | ok u =>
    cases u
    cases hA : lib.CodeAgent [] with
    | raise e =>
      by_cases hcls : e.cls = ExcClass.exception
      · exact Or.inr (Or.inr (Or.inl
          ⟨errorLine e, by simp [runScript, tryBody, hI, hA, hcls]⟩))
      · exact Or.inr (Or.inl (by simp [runScript, tryBody, hI, hA, hcls]))
    | ok a =>
      cases hR : lib.run a prompt with
      | raise e =>
        by_cases hcls : e.cls = ExcClass.exception
        · exact Or.inr (Or.inr (Or.inr (Or.inr
            ⟨a, errorLine e, by simp [runScript, tryBody, hI, hA, hR, hcls]⟩)))
        · exact Or.inr (Or.inr (Or.inr (Or.inl
            ⟨a, by simp [runScript, tryBody, hI, hA, hR, hcls]⟩)))
      | ok r =>
        exact Or.inr (Or.inr (Or.inr (Or.inr
          ⟨a, r, by simp [runScript, tryBody, hI, hA, hR]⟩)))

/-- Claim C6, counterexample: the claim quantifies over every behaviour of
the external library, but when `run` raises a `SystemExit` (a
`BaseException` that is not an `Exception`) the failure is neither
swallowed nor printed: the process does not terminate normally. -/
theorem C6_counterexample :
    (runScript libRunSysExit).2 ≠ Outcome.normalExit ∧
      outputs libRunSysExit = [] := by decide

/-- Claim C6 as amended: for every behaviour of the external library whose
construction and run failures, if any, are of class `Exception`, the
process terminates normally, and such a failure is swallowed and printed
as the error line rather than surfaced as a non-zero exit code. -/
theorem C6_amended (lib : Smolagents)
    (himp : lib.moduleImport = Call.ok ())
    (hc : ∀ e, lib.CodeAgent [] = Call.raise e → e.cls = ExcClass.exception)
    (hr : ∀ a e, lib.CodeAgent [] = Call.ok a →
      lib.run a prompt = Call.raise e → e.cls = ExcClass.exception) :
    (runScript lib).2 = Outcome.normalExit ∧
    (∀ e, lib.CodeAgent [] = Call.raise e → errorLine e ∈ outputs lib) ∧
    (∀ a e, lib.CodeAgent [] = Call.ok a → lib.run a prompt = Call.raise e →
      errorLine e ∈ outputs lib) := by
  cases hA : lib.CodeAgent [] with
  | raise e =>
    refine ⟨?_, ?_, ?_⟩ <;>
      simp [outputs, runScript, tryBody, printedOf, himp, hA, hc e hA]
  | ok a =>
    cases hR : lib.run a prompt with
    | raise e =>
      refine ⟨?_, ?_, ?_⟩
      · simp [runScript, tryBody, himp, hA, hR, hr a e hA hR]
      · intro e2 h2
        exact nomatch h2
      · intro a2 e2 hA2 hR2
        injection hA2 with ha
        subst ha
        rw [hR] at hR2
        injection hR2 with he
        subst he
        simp [outputs, runScript, tryBody, printedOf, himp, hA, hR,
          hr a e hA hR]
    | ok r =>
      refine ⟨?_, ?_, ?_⟩
      · simp [runScript, tryBody, himp, hA, hR]
      · intro e2 h2
        exact nomatch h2
      · intro a2 e2 hA2 hR2
        injection hA2 with ha
        subst ha
        rw [hR] at hR2
        exact nomatch hR2

/-- Claim C6 witness: `C6_amended` at the behaviour whose constructor
raises the `Exception` `excBoom`: normal exit, error line printed. -/
theorem C6_witness :
    (runScript libCtorBoom).2 = Outcome.normalExit ∧
      errorLine excBoom ∈ outputs libCtorBoom :=
  ⟨(C6_amended libCtorBoom rfl
      (fun e h => by injection h with h1; exact h1 ▸ rfl)
      (fun _ e _ h => nomatch h)).1,
   (C6_amended libCtorBoom rfl
      (fun e h => by injection h with h1; exact h1 ▸ rfl)
      (fun _ e _ h => nomatch h)).2.1 excBoom rfl⟩

/-- Claim C7, counterexample: when the import itself fails, the script
prints nothing at all, so an execution can produce zero prints and the
claim that every execution produces exactly one is false. -/
theorem C7_counterexample : (outputs libImportFail).length ≠ 1 := by decide

/-- Claim C7 as amended: every execution that terminates normally produces
exactly one print — the success result or the single error line — and
every execution that ends in an uncaught failure (a failed import, or a
`BaseException` that is not an `Exception`) produces none. -/
theorem C7_amended (lib : Smolagents) :
    ((runScript lib).2 = Outcome.normalExit → (outputs lib).length = 1) ∧
    (∀ e, (runScript lib).2 = Outcome.uncaught e →
      (outputs lib).length = 0) := by
  cases hI : lib.moduleImport with
  | raise e => refine ⟨?_, ?_⟩ <;> simp [outputs, runScript, printedOf, hI]
  | ok u =>
    cases u
    cases hA : lib.CodeAgent [] with
    | raise e =>
      by_cases hcls : e.cls = ExcClass.exception <;>
        refine ⟨?_, ?_⟩ <;>
          simp [outputs, runScript, tryBody, printedOf, hI, hA, hcls]
    | ok a =>
      cases hR : lib.run a prompt with
      | raise e =>
        by_cases hcls : e.cls = ExcClass.exception <;>
          refine ⟨?_, ?_⟩ <;>
            simp [outputs, runScript, tryBody, printedOf, hI, hA, hR, hcls]
      | ok r =>
        refine ⟨?_, ?_⟩ <;>
          simp [outputs, runScript, tryBody, printedOf, hI, hA, hR]

/-- Claim C7 witness: `C7_amended` on the successful behaviour `libOk`
(one print) and on `libRunBoom`, where the run call raises the
`Exception` `excBoom` (still exactly one print: the error line). -/
theorem C7_witness :
    (outputs libOk).length = 1 ∧ (outputs libRunBoom).length = 1 :=
  ⟨(C7_amended libOk).1 rfl, (C7_amended libRunBoom).1 rfl⟩

/-- Claim C8: a failure raised while importing the library propagates out
of the process uncaught with nothing printed and no constructor call made;
by contrast an `Exception`-class failure in construction or in the run
invocation is caught and the process terminates normally. -/
theorem C8_import_outside_try (lib : Smolagents) :
    (∀ e, lib.moduleImport = Call.raise e →
      runScript lib = ([], Outcome.uncaught e)) ∧
    (∀ e, lib.moduleImport = Call.ok () → lib.CodeAgent [] = Call.raise e →
      e.cls = ExcClass.exception → (runScript lib).2 = Outcome.normalExit) ∧
    (∀ a e, lib.moduleImport = Call.ok () → lib.CodeAgent [] = Call.ok a →
      lib.run a prompt = Call.raise e → e.cls = ExcClass.exception →
      (runScript lib).2 = Outcome.normalExit) := by
  refine ⟨fun e hI => by simp [runScript, hI],
    fun e hI hA hcls => by simp [runScript, tryBody, hI, hA, hcls],
    fun a e hI hA hR hcls => by simp [runScript, tryBody, hI, hA, hR, hcls]⟩

/-- Claim C8 witness: `C8_import_outside_try` on a failing import
(uncaught, no events), on a constructor raising the `Exception` `excBoom`
(caught), and on a run call raising `excBoom` (caught). -/
theorem C8_witness :
    runScript libImportFail =
        ([], Outcome.uncaught ⟨ExcClass.exception, "ModuleNotFoundError"⟩) ∧
      (runScript libCtorBoom).2 = Outcome.normalExit ∧
      (runScript libRunBoom).2 = Outcome.normalExit :=
  ⟨(C8_import_outside_try libImportFail).1 _ rfl,
   (C8_import_outside_try libCtorBoom).2.1 excBoom rfl rfl rfl,
   (C8_import_outside_try libRunBoom).2.2 3 excBoom rfl rfl rfl rfl⟩

/-- Claim C9: a `BaseException` that is not an `Exception` raised during
construction or during the run invocation propagates uncaught, and is not
converted to the error line: nothing at all is printed. -/
theorem C9_base_exception_propagates (lib : Smolagents) (e : Exc)
    (himp : lib.moduleImport = Call.ok ())
    (hcls : e.cls ≠ ExcClass.exception)
    (hraised : lib.CodeAgent [] = Call.raise e ∨
      ∃ a, lib.CodeAgent [] = Call.ok a ∧ lib.run a prompt = Call.raise e) :
    (runScript lib).2 = Outcome.uncaught e ∧ outputs lib = [] := by
  rcases hraised with hA | ⟨a, hA, hR⟩
  · simp [outputs, runScript, tryBody, printedOf, himp, hA, hcls]
  · simp [outputs, runScript, tryBody, printedOf, himp, hA, hR, hcls]

/-- Claim C9 witness: `C9_base_exception_propagates` on the behaviour
whose constructor raises a `KeyboardInterrupt`. -/
theorem C9_witness :
    (runScript libCtorKb).2 = Outcome.uncaught kbInt ∧
      outputs libCtorKb = [] :=
  C9_base_exception_propagates libCtorKb kbInt rfl (by decide) (Or.inl rfl)

/-- Claim C10: the printed output is a deterministic function of the
behaviour of the calls the script actually makes.  Two library behaviours
that agree on the import outcome, on `CodeAgent([])`, and on `run` at the
constructed agent and the hard-coded prompt produce identical printed
output, whatever they do elsewhere. -/
theorem C10_output_deterministic (lib1 lib2 : Smolagents)
    (hI : lib1.moduleImport = lib2.moduleImport)
    (hA : lib1.CodeAgent [] = lib2.CodeAgent [])
    (hR : ∀ a, lib1.CodeAgent [] = Call.ok a →
      lib1.run a prompt = lib2.run a prompt) :
    outputs lib1 = outputs lib2 := by
  cases hI2 : lib2.moduleImport with
  | raise e => simp [outputs, runScript, printedOf, hI.trans hI2, hI2]
  | ok u =>
    cases u
    cases hA2 : lib2.CodeAgent [] with
    | raise e =>
      simp [outputs, runScript, tryBody, printedOf, hI.trans hI2, hI2,
        hA.trans hA2, hA2]
    | ok a =>
      have hR2 : lib1.run a prompt = lib2.run a prompt :=
        hR a (hA.trans hA2)
      cases hRr : lib2.run a prompt with
      | raise e =>
        simp [outputs, runScript, tryBody, printedOf, hI.trans hI2, hI2,
          hA.trans hA2, hA2, hR2.trans hRr, hRr]
      | ok r =>
        simp [outputs, runScript, tryBody, printedOf, hI.trans hI2, hI2,
          hA.trans hA2, hA2, hR2.trans hRr, hRr]

/-- Claim C10 witness: `C10_output_deterministic` on `libOk` and
`libOkShadow`, which agree on the calls the script makes but differ on
constructor calls with a non-empty tool list. -/
theorem C10_witness : outputs libOk = outputs libOkShadow :=
  C10_output_deterministic libOk libOkShadow rfl rfl (fun _ _ => rfl)

end RunSmolagents
